import Mathlib

/-!
# Tendermint light-client header validity and update (x/ibc/07-tendermint/update.go)

A shallow embedding of `CheckValidityAndUpdateState`, `checkValidity` and `update`.

* Go's `time.Time` is an instant in integer nanoseconds since the Unix epoch (wall clock only:
  header and client times come out of decoded messages and carry no monotonic reading).
* Go's `time.Duration` is an `int64` count of nanoseconds; `Time.Sub` saturates to that range.
* A Go pointer is an `Option`; dereferencing `nil` is the outcome `panics`.
* The Tendermint library (`FromProto`, `lite.Verify`) is not part of this repository; it is a
  parameter of the embedding, and so is `ClientState.GetChainID`, which only feeds `lite.Verify`.
-/

namespace tendermint

/-! ## Go runtime values -/

/-- Smallest value of Go's `time.Duration` (an `int64`). -/
def minDuration : Int := -9223372036854775808

/-- Largest value of Go's `time.Duration` (an `int64`). -/
def maxDuration : Int := 9223372036854775807

/-- Go's `time.Duration`: a signed 64-bit count of nanoseconds. -/
structure Duration where
  ns : Int
  lo : minDuration ≤ ns
  hi : ns ≤ maxDuration

/-- Go's `time.Time`, as the instant it denotes: nanoseconds since the Unix epoch. -/
structure Time where
  unixNano : Int

/-- Clamp an exact difference of instants into the `int64` range of a `Duration`. -/
def saturate (d : Int) : Duration :=
  if h1 : d < minDuration then ⟨minDuration, le_refl _, by decide⟩
  else if h2 : maxDuration < d then ⟨maxDuration, by decide, le_refl _⟩
  else ⟨d, not_lt.mp h1, not_lt.mp h2⟩

/-- Go's `Time.Sub`: the duration `t - u`, or the maximum (minimum) duration when the
difference does not fit an `int64`. -/
def Time.Sub (t u : Time) : Duration := saturate (t.unixNano - u.unixNano)

/-- Go's `Time.Unix`: whole seconds since the Unix epoch (the nanosecond part of a Go time is
never negative, so this is the floor). -/
def Time.Unix (t : Time) : Int := t.unixNano / 1000000000

/-- Go's `time.Second`, in nanoseconds. -/
def Second : Int := 1000000000

/-- Go's conversion `uint64(x)` of an `int64`. -/
def uint64 (x : Int) : Nat := (x % 18446744073709551616).toNat

/-- Result of running a Go function body: it returns a value or it panics. -/
inductive Outcome (α : Type) where
  | returns (a : α)
  | panics

/-! ## Data model: the fields that update.go reads or writes -/

/-- The protobuf block header (`tmproto.Header`), read through its getters. -/
structure tmproto.Header where
  ChainID : String
  Height : Int
  Time : Time
  AppHash : List Nat

/-- One signature of a commit. -/
structure tmproto.CommitSig where
  ValidatorAddress : Nat
  Signature : List Nat

/-- The commit attesting to a header. -/
structure tmproto.Commit where
  Height : Int
  Signatures : List tmproto.CommitSig

/-- The protobuf signed header: a header and its commit. -/
structure tmproto.SignedHeader where
  Header : tmproto.Header
  Commit : tmproto.Commit

/-- One member of a validator set. -/
structure tmproto.Validator where
  Address : Nat
  VotingPower : Int

/-- The protobuf validator set. -/
structure tmproto.ValidatorSet where
  Validators : List tmproto.Validator

/-- The Tendermint client header `types.Header`: `SignedHeader` is read by value,
`ValidatorSet` is a pointer (update.go dereferences it). -/
structure types.Header where
  SignedHeader : tmproto.SignedHeader
  ValidatorSet : Option tmproto.ValidatorSet

/-- The Tendermint client state `types.ClientState`. update.go touches `TrustingPeriod` and
`LastHeader`; `Rest` stands for every other field of the struct. -/
structure types.ClientState (κ : Type) where
  TrustingPeriod : Duration
  LastHeader : types.Header
  Rest : κ

/-- The commitment root `commitmenttypes.MerkleRoot`. -/
structure commitmenttypes.MerkleRoot where
  Hash : List Nat

/-- The Tendermint consensus state `types.ConsensusState`, with the fields update.go sets. -/
structure types.ConsensusState where
  Height : Nat
  Timestamp : Time
  Root : commitmenttypes.MerkleRoot
  ValidatorSet : Option tmproto.ValidatorSet

/-- The interface `clientexported.ClientState`: a Tendermint client state or the state of
some other light-client kind. -/
inductive clientexported.ClientState (κ : Type) where
  | Tendermint (cs : types.ClientState κ)
  | Other (clientType : Nat)

/-- The interface `clientexported.Header`: a Tendermint header or another kind of header. -/
inductive clientexported.Header where
  | Tendermint (h : types.Header)
  | Other (clientType : Nat)

/-- The errors of update.go, one constructor per `return` site that yields an error. -/
inductive Error where
  /-- Line 32: `sdkerrors.Wrap(clienttypes.ErrInvalidClientType, "light client is not from Tendermint")`. -/
  | InvalidClientType
  /-- Line 39: `sdkerrors.Wrap(clienttypes.ErrInvalidHeader, "header is not from Tendermint")`. -/
  | HeaderNotTendermint
  /-- Line 65: `errors.New("trusting period since last client timestamp already passed")`. -/
  | TrustingPeriodPassed
  /-- Line 70: `ErrInvalidHeader` wrapped with "header blocktime is outside trusting period from
  last client timestamp". -/
  | HeaderOutsideTrustingPeriod
  /-- Line 78: `ErrInvalidHeader` wrapped with "header blocktime ≤ latest client state block time
  (%s ≤ %s)", the two times as printed. -/
  | BlocktimeNotLater (headerTime latestTime : Time)
  /-- Line 87: `ErrInvalidHeader` wrapped with "header height ≤ latest client state height
  (%d ≤ %d)", the two heights as printed. -/
  | HeightNotNewer (headerHeight latestHeight : Nat)
  /-- Lines 94, 98, 102, 106: the error of a `FromProto` call, returned as it is. -/
  | FromProto (msg : String)
  /-- Line 122: `sdkerrors.Wrap(clienttypes.ErrInvalidHeader, err.Error())` for an error of
  `lite.Verify`. -/
  | VerifyFailed (msg : String)

/-! ## Accessors of the types package -/

/-- Modelled from the spec: `types.Header.GetHeight` is not under src/. The spec's candidate
Height is the header's height; update.go compares it with a `uint64` and update stores
`uint64(header.SignedHeader.Header.GetHeight())` as the consensus height. -/
def types.Header.GetHeight (h : types.Header) : Nat := uint64 h.SignedHeader.Header.Height

/-- Modelled from the spec: `types.ClientState.GetLatestHeight` is not under src/. The spec's
trusted Height is the height of the last accepted header, which the client state keeps as
`LastHeader`. -/
def types.ClientState.GetLatestHeight {κ : Type} (cs : types.ClientState κ) : Nat :=
  cs.LastHeader.GetHeight

/-- Modelled from the spec: `types.ClientState.GetLatestTimestamp` is not under src/. The
spec's trusted Timestamp is the time of the last accepted header, which the client state
keeps as `LastHeader`. -/
def types.ClientState.GetLatestTimestamp {κ : Type} (cs : types.ClientState κ) : Time :=
  cs.LastHeader.SignedHeader.Header.Time

/-- Modelled from the spec: `commitmenttypes.NewMerkleRoot` is not under src/. The MerkleRoot
of application state is the root built from the header's app hash. -/
def commitmenttypes.NewMerkleRoot (hash : List Nat) : commitmenttypes.MerkleRoot := ⟨hash⟩

/-! ## The code outside this repository -/

/-- The library's converted signed header (`tmtypes.SignedHeader`). -/
abbrev tmtypes.SignedHeader := tmproto.SignedHeader

/-- The library's converted validator set (`tmtypes.ValidatorSet`). -/
abbrev tmtypes.ValidatorSet := tmproto.ValidatorSet

/-- A fraction `tmmath.Fraction`, the type of a trust level. -/
structure Fraction where
  Numerator : Int
  Denominator : Int

/-- What update.go calls and does not define. A library call returns a Go `error` (`none` is
`nil`, `some msg` an error whose `Error()` text is `msg`) or panics. The first argument of a
`FromProto` is its pointer receiver. -/
structure Deps (κ : Type) where
  GetChainID : types.ClientState κ → String
  SignedHeaderFromProto :
    Option tmtypes.SignedHeader → tmproto.SignedHeader → Outcome (Option String)
  ValidatorSetFromProto :
    Option tmtypes.ValidatorSet → tmproto.ValidatorSet → Outcome (Option String)
  DefaultTrustLevel : Fraction
  Verify : String → Option tmtypes.SignedHeader → Option tmtypes.ValidatorSet →
    Option tmtypes.SignedHeader → Option tmtypes.ValidatorSet →
    Duration → Time → Duration → Fraction → Outcome (Option String)

/-! ## update.go -/

/-- The local `maxClockDrift := 10 * time.Second` of checkValidity. -/
def maxClockDrift : Duration := ⟨10 * Second, by decide, by decide⟩

/-- The function `checkValidity`: the four precondition checks in source order, then the four
`FromProto` calls and `lite.Verify`.

The locals `tmLastSignedHeader`, `tmSignedHeader`, `tmLastValidatorSet`, `tmValidatorSet` are
declared by `var` as pointers and never assigned: each is `nil`, stays `nil` (a method call
cannot rebind its receiver variable), and is what `lite.Verify` receives. -/
def checkValidity {κ : Type} (deps : Deps κ) (clientState : types.ClientState κ)
    (header : types.Header) (currentTimestamp : Time) : Outcome (Option Error) :=
  let tmLastSignedHeader : Option tmtypes.SignedHeader := none
  let tmSignedHeader : Option tmtypes.SignedHeader := none
  let tmLastValidatorSet : Option tmtypes.ValidatorSet := none
  let tmValidatorSet : Option tmtypes.ValidatorSet := none
  -- assert trusting period has not yet passed
  if (currentTimestamp.Sub clientState.GetLatestTimestamp).ns ≥ clientState.TrustingPeriod.ns then
    .returns (some .TrustingPeriodPassed)
  -- assert header timestamp is not past the trusting period
  else if (header.SignedHeader.Header.Time.Sub clientState.GetLatestTimestamp).ns
      ≥ clientState.TrustingPeriod.ns then
    .returns (some .HeaderOutsideTrustingPeriod)
  -- assert header timestamp is past latest clientstate timestamp
  else if header.SignedHeader.Header.Time.Unix ≤ clientState.GetLatestTimestamp.Unix then
    .returns (some (.BlocktimeNotLater header.SignedHeader.Header.Time
      clientState.GetLatestTimestamp))
  -- assert header height is newer than any we know
  else if header.GetHeight ≤ clientState.GetLatestHeight then
    .returns (some (.HeightNotNewer header.GetHeight clientState.GetLatestHeight))
  else
    match deps.SignedHeaderFromProto tmLastSignedHeader clientState.LastHeader.SignedHeader with
    | .panics => .panics
    | .returns (some err) => .returns (some (.FromProto err))
    | .returns none =>
    match clientState.LastHeader.ValidatorSet with
    | none => .panics
    | some lastValidatorSet =>
    match deps.ValidatorSetFromProto tmLastValidatorSet lastValidatorSet with
    | .panics => .panics
    | .returns (some err) => .returns (some (.FromProto err))
    | .returns none =>
    match deps.SignedHeaderFromProto tmSignedHeader header.SignedHeader with
    | .panics => .panics
    | .returns (some err) => .returns (some (.FromProto err))
    | .returns none =>
    match header.ValidatorSet with
    | none => .panics
    | some validatorSet =>
    match deps.ValidatorSetFromProto tmValidatorSet validatorSet with
    | .panics => .panics
    | .returns (some err) => .returns (some (.FromProto err))
    | .returns none =>
    -- Verify next header with the last header's validatorset as trusted validatorset
    match deps.Verify (deps.GetChainID clientState) tmLastSignedHeader tmLastValidatorSet
        tmSignedHeader tmValidatorSet clientState.TrustingPeriod currentTimestamp
        maxClockDrift deps.DefaultTrustLevel with
    | .panics => .panics
    | .returns (some err) => .returns (some (.VerifyFailed err))
    | .returns none => .returns none

/-- The function `update`: the consensus state from a new header. -/
def update {κ : Type} (clientState : types.ClientState κ) (header : types.Header) :
    types.ClientState κ × types.ConsensusState :=
  let clientState := { clientState with LastHeader := header }
  let consensusState : types.ConsensusState :=
    { Height := uint64 header.SignedHeader.Header.Height
      Timestamp := header.SignedHeader.Header.Time
      Root := commitmenttypes.NewMerkleRoot header.SignedHeader.Header.AppHash
      ValidatorSet := header.ValidatorSet }
  (clientState, consensusState)

/-- The function `CheckValidityAndUpdateState`. The three components of the returned value are
the Go results `(ClientState, ConsensusState, error)`; `none` is `nil`. -/
def CheckValidityAndUpdateState {κ : Type} (deps : Deps κ)
    (clientState : clientexported.ClientState κ) (header : clientexported.Header)
    (currentTimestamp : Time) :
    Outcome (Option (types.ClientState κ) × Option types.ConsensusState × Option Error) :=
  match clientState with
  | .Other _ => .returns (none, none, some .InvalidClientType)
  | .Tendermint tmClientState =>
    match header with
    | .Other _ => .returns (none, none, some .HeaderNotTendermint)
    | .Tendermint tmHeader =>
      match checkValidity deps tmClientState tmHeader currentTimestamp with
      | .panics => .panics
      | .returns (some err) => .returns (none, none, some err)
      | .returns none =>
        let r := update tmClientState tmHeader
        .returns (some r.1, some r.2, none)

/-! ## The conditions of the four precondition checks, as checkValidity tests them -/

/-- The condition of line 64:
`currentTimestamp.Sub(clientState.GetLatestTimestamp()) >= clientState.TrustingPeriod`. -/
def periodPassed {κ : Type} (clientState : types.ClientState κ) (currentTimestamp : Time) :
    Prop :=
  (currentTimestamp.Sub clientState.GetLatestTimestamp).ns ≥ clientState.TrustingPeriod.ns

/-- The condition of line 69: `header.SignedHeader.Header.GetTime().Sub(
clientState.GetLatestTimestamp()) >= clientState.TrustingPeriod`. -/
def headerOutsidePeriod {κ : Type} (clientState : types.ClientState κ)
    (header : types.Header) : Prop :=
  (header.SignedHeader.Header.Time.Sub clientState.GetLatestTimestamp).ns
    ≥ clientState.TrustingPeriod.ns

/-- The condition of line 77: `header.SignedHeader.Header.GetTime().Unix() <=
clientState.GetLatestTimestamp().Unix()`. -/
def blocktimeNotLater {κ : Type} (clientState : types.ClientState κ)
    (header : types.Header) : Prop :=
  header.SignedHeader.Header.Time.Unix ≤ clientState.GetLatestTimestamp.Unix

/-- The condition of line 86: `header.GetHeight() <= clientState.GetLatestHeight()`. -/
def heightNotNewer {κ : Type} (clientState : types.ClientState κ) (header : types.Header) :
    Prop :=
  header.GetHeight ≤ clientState.GetLatestHeight

instance {κ : Type} (clientState : types.ClientState κ) (currentTimestamp : Time) :
    Decidable (periodPassed clientState currentTimestamp) := by
  unfold periodPassed; infer_instance

instance {κ : Type} (clientState : types.ClientState κ) (header : types.Header) :
    Decidable (headerOutsidePeriod clientState header) := by
  unfold headerOutsidePeriod; infer_instance

instance {κ : Type} (clientState : types.ClientState κ) (header : types.Header) :
    Decidable (blocktimeNotLater clientState header) := by
  unfold blocktimeNotLater; infer_instance

instance {κ : Type} (clientState : types.ClientState κ) (header : types.Header) :
    Decidable (heightNotNewer clientState header) := by
  unfold heightNotNewer; infer_instance

/-- The header `header` with its chain identifier replaced by `chainID`. -/
def withChainID (header : types.Header) (chainID : String) : types.Header :=
  { header with SignedHeader :=
      { header.SignedHeader with Header :=
          { header.SignedHeader.Header with ChainID := chainID } } }

/-! ## Concrete inputs

The spec's example scenario: a trusted header at height 100 and time `t0`, validator set A
with powers 34/33/33, and a candidate at height 101, ten seconds later, with the same set,
signed by the validators of power 34 and 33. -/

/-- The instant `t0` of the scenario: 1 600 000 000 s after the epoch. -/
def t0 : Time := ⟨1600000000 * Second⟩

/-- Validator set A: three validators of power 34, 33 and 33. -/
def valsA : tmproto.ValidatorSet := ⟨[⟨1, 34⟩, ⟨2, 33⟩, ⟨3, 33⟩]⟩

/-- The trusted header: chain "chain-A", height 100, time `t0`, signed by all of A. -/
def trustedHeader : types.Header :=
  { SignedHeader :=
      { Header := { ChainID := "chain-A", Height := 100, Time := t0, AppHash := [10, 20] }
        Commit := { Height := 100, Signatures := [⟨1, [1]⟩, ⟨2, [2]⟩, ⟨3, [3]⟩] } }
    ValidatorSet := some valsA }

/-- The candidate header: height 101 at `t0 + 10s`, signed by validators 1 and 2 (67 power). -/
def candidateHeader : types.Header :=
  { SignedHeader :=
      { Header := { ChainID := "chain-A", Height := 101, Time := ⟨t0.unixNano + 10 * Second⟩,
                    AppHash := [30, 40] }
        Commit := { Height := 101, Signatures := [⟨1, [4]⟩, ⟨2, [5]⟩] } }
    ValidatorSet := some valsA }

/-- A trusting period of fourteen days. -/
def fourteenDays : Duration := ⟨1209600 * Second, by decide, by decide⟩

/-- The client state of the scenario, trusting `trustedHeader` for fourteen days. -/
def trustedClient : types.ClientState Unit :=
  { TrustingPeriod := fourteenDays, LastHeader := trustedHeader, Rest := () }

/-- A library that accepts: every conversion and `lite.Verify` return `nil`. The chain
identifier of a client state is read from its last header. -/
def acceptingDeps : Deps Unit :=
  { GetChainID := fun cs => cs.LastHeader.SignedHeader.Header.ChainID
    SignedHeaderFromProto := fun _ _ => .returns none
    ValidatorSetFromProto := fun _ _ => .returns none
    DefaultTrustLevel := ⟨1, 3⟩
    Verify := fun _ _ _ _ _ _ _ _ _ => .returns none }

/-- A header of height 101 whose time is one nanosecond after `t0`. -/
def nanoLaterHeader : types.Header :=
  { SignedHeader :=
      { Header := { ChainID := "chain-A", Height := 101, Time := ⟨t0.unixNano + 1⟩,
                    AppHash := [30, 40] }
        Commit := { Height := 101, Signatures := [⟨1, [4]⟩, ⟨2, [5]⟩] } }
    ValidatorSet := some valsA }

/-- The candidate header on another chain, "chain-B". -/
def foreignHeader : types.Header := withChainID candidateHeader "chain-B"

/-- A header of height 100 whose time is 0.6 s after `t0`, in the same second. -/
def sameSecondHeader : types.Header :=
  { SignedHeader :=
      { Header := { ChainID := "chain-A", Height := 100, Time := ⟨t0.unixNano + 600000000⟩,
                    AppHash := [30, 40] }
        Commit := { Height := 100, Signatures := [⟨1, [4]⟩, ⟨2, [5]⟩] } }
    ValidatorSet := some valsA }

/-- A header of height 100, the trusted height, at `t0 + 10s`. -/
def staleHeightHeader : types.Header :=
  { SignedHeader :=
      { Header := { ChainID := "chain-A", Height := 100, Time := ⟨t0.unixNano + 10 * Second⟩,
                    AppHash := [30, 40] }
        Commit := { Height := 100, Signatures := [⟨1, [4]⟩, ⟨2, [5]⟩] } }
    ValidatorSet := some valsA }

/-- A library whose `lite.Verify` dereferences its arguments: it panics when a signed header
or a validator set is `nil`, and accepts otherwise. Its conversions return `nil`. -/
def dereferencingDeps : Deps Unit :=
  { GetChainID := fun cs => cs.LastHeader.SignedHeader.Header.ChainID
    SignedHeaderFromProto := fun _ _ => .returns none
    ValidatorSetFromProto := fun _ _ => .returns none
    DefaultTrustLevel := ⟨1, 3⟩
    Verify := fun _ lastSignedHeader lastValidatorSet signedHeader validatorSet _ _ _ _ =>
      match lastSignedHeader, lastValidatorSet, signedHeader, validatorSet with
      | some _, some _, some _, some _ => .returns none
      | _, _, _, _ => .panics }

/-- A library that accepts `nil` arguments and rejects every actual signed header. -/
def nilOnlyDeps : Deps Unit :=
  { GetChainID := fun cs => cs.LastHeader.SignedHeader.Header.ChainID
    SignedHeaderFromProto := fun _ _ => .returns none
    ValidatorSetFromProto := fun _ _ => .returns none
    DefaultTrustLevel := ⟨1, 3⟩
    Verify := fun _ lastSignedHeader _ signedHeader _ _ _ _ _ =>
      match lastSignedHeader, signedHeader with
      | none, none => .returns none
      | _, _ => .returns (some "untrusted header") }

/-- A trusting period of zero. -/
def zeroPeriod : Duration := ⟨0, by decide, by decide⟩

/-- The client state of the scenario with a trusting period of zero. -/
def zeroTrustClient : types.ClientState Unit :=
  { TrustingPeriod := zeroPeriod, LastHeader := trustedHeader, Rest := () }

/-- A library whose `lite.Verify` accepts exactly a new signed header of the chain identifier
it is given: it returns an error for a header of another chain and panics on a `nil` header.
Its conversions return `nil`. -/
def chainCheckingDeps : Deps Unit :=
  { GetChainID := fun cs => cs.LastHeader.SignedHeader.Header.ChainID
    SignedHeaderFromProto := fun _ _ => .returns none
    ValidatorSetFromProto := fun _ _ => .returns none
    DefaultTrustLevel := ⟨1, 3⟩
    Verify := fun chainID _ _ signedHeader _ _ _ _ _ =>
      match signedHeader with
      | some sh =>
        if sh.Header.ChainID = chainID then .returns none
        else .returns (some "header belongs to another chain")
      | none => .panics }

/-! ## Lemmas on Go time arithmetic -/

/-- Saturation is monotone against any representable duration: an exact difference that is at
least a `Duration` is still at least that duration once clamped. -/
theorem saturate_ge (d : Int) (x : Duration) (h : x.ns ≤ d) : x.ns ≤ (saturate d).ns := by
  have hlo := x.lo
  have hhi := x.hi
  unfold saturate
  split
  · simp only [minDuration] at *; omega
  · split
    · exact hhi
    · exact h

/-- A header time in a strictly later whole second is a strictly later instant. -/
theorem unix_lt_imp_lt (t u : Time) (h : u.Unix < t.Unix) : u.unixNano < t.unixNano := by
  unfold Time.Unix at h
  omega

/-- A time at least one second later lies in a strictly later whole second. -/
theorem second_later_unix (t u : Time) (h : u.unixNano + Second ≤ t.unixNano) :
    u.Unix < t.Unix := by
  unfold Time.Unix
  unfold Second at h
  omega

/-- A time that is not later does not lie in a later whole second. -/
theorem not_later_unix (t u : Time) (h : t.unixNano ≤ u.unixNano) : t.Unix ≤ u.Unix := by
  unfold Time.Unix
  omega

/-! ## Case analysis of checkValidity -/

/-- The first check: the trusting period has passed. -/
theorem checkValidity_periodPassed {κ : Type} (deps : Deps κ) (cs : types.ClientState κ)
    (h : types.Header) (now : Time) (h1 : periodPassed cs now) :
    checkValidity deps cs h now = .returns (some .TrustingPeriodPassed) := by
  unfold periodPassed at h1
  simp only [checkValidity, if_pos h1]

/-- The second check, reached when the first passes. -/
theorem checkValidity_headerOutsidePeriod {κ : Type} (deps : Deps κ)
    (cs : types.ClientState κ) (h : types.Header) (now : Time)
    (h1 : ¬ periodPassed cs now) (h2 : headerOutsidePeriod cs h) :
    checkValidity deps cs h now = .returns (some .HeaderOutsideTrustingPeriod) := by
  unfold periodPassed at h1
  unfold headerOutsidePeriod at h2
  simp only [checkValidity, if_neg h1, if_pos h2]

/-- The third check, reached when the first two pass. -/
theorem checkValidity_blocktimeNotLater {κ : Type} (deps : Deps κ)
    (cs : types.ClientState κ) (h : types.Header) (now : Time)
    (h1 : ¬ periodPassed cs now) (h2 : ¬ headerOutsidePeriod cs h)
    (h3 : blocktimeNotLater cs h) :
    checkValidity deps cs h now
      = .returns (some (.BlocktimeNotLater h.SignedHeader.Header.Time
          cs.GetLatestTimestamp)) := by
  unfold periodPassed at h1
  unfold headerOutsidePeriod at h2
  unfold blocktimeNotLater at h3
  simp only [checkValidity, if_neg h1, if_neg h2, if_pos h3]

/-- The fourth check, reached when the first three pass. -/
theorem checkValidity_heightNotNewer {κ : Type} (deps : Deps κ)
    (cs : types.ClientState κ) (h : types.Header) (now : Time)
    (h1 : ¬ periodPassed cs now) (h2 : ¬ headerOutsidePeriod cs h)
    (h3 : ¬ blocktimeNotLater cs h) (h4 : heightNotNewer cs h) :
    checkValidity deps cs h now
      = .returns (some (.HeightNotNewer h.GetHeight cs.GetLatestHeight)) := by
  unfold periodPassed at h1
  unfold headerOutsidePeriod at h2
  unfold blocktimeNotLater at h3
  unfold heightNotNewer at h4
  simp only [checkValidity, if_neg h1, if_neg h2, if_neg h3, if_pos h4]

/-- Past the four checks, an error of checkValidity comes from a conversion or from
`lite.Verify`. -/
theorem checkValidity_delegated_errors {κ : Type} (deps : Deps κ)
    (cs : types.ClientState κ) (h : types.Header) (now : Time)
    (h1 : ¬ periodPassed cs now) (h2 : ¬ headerOutsidePeriod cs h)
    (h3 : ¬ blocktimeNotLater cs h) (h4 : ¬ heightNotNewer cs h) (e : Error)
    (he : checkValidity deps cs h now = .returns (some e)) :
    (∃ m, e = .FromProto m) ∨ (∃ m, e = .VerifyFailed m) := by
  unfold periodPassed at h1
  unfold headerOutsidePeriod at h2
  unfold blocktimeNotLater at h3
  unfold heightNotNewer at h4
  unfold checkValidity at he
  simp only [if_neg h1, if_neg h2, if_neg h3, if_neg h4] at he
  repeat' split at he
  all_goals (cases he <;> simp)

/-- The four conditions do not read the chain identifier of the header. -/
theorem conditions_withChainID {κ : Type} (cs : types.ClientState κ) (h : types.Header)
    (c : String) :
    (headerOutsidePeriod cs (withChainID h c) ↔ headerOutsidePeriod cs h)
      ∧ (blocktimeNotLater cs (withChainID h c) ↔ blocktimeNotLater cs h)
      ∧ (heightNotNewer cs (withChainID h c) ↔ heightNotNewer cs h) :=
  ⟨Iff.rfl, Iff.rfl, Iff.rfl⟩

/-- When one of the four checks fires, the outcome of checkValidity depends neither on the
library nor on the chain identifier of the header. -/
theorem checkValidity_precondition_independent {κ : Type} (deps deps2 : Deps κ)
    (cs : types.ClientState κ) (h : types.Header) (now : Time) (c : String)
    (hpre : periodPassed cs now ∨ headerOutsidePeriod cs h ∨ blocktimeNotLater cs h
      ∨ heightNotNewer cs h) :
    checkValidity deps2 cs (withChainID h c) now = checkValidity deps cs h now := by
  obtain ⟨w2, w3, w4⟩ := conditions_withChainID cs h c
  by_cases h1 : periodPassed cs now
  · rw [checkValidity_periodPassed deps2 cs _ now h1, checkValidity_periodPassed deps cs h now h1]
  · by_cases h2 : headerOutsidePeriod cs h
    · rw [checkValidity_headerOutsidePeriod deps2 cs _ now h1 (w2.mpr h2),
        checkValidity_headerOutsidePeriod deps cs h now h1 h2]
    · by_cases h3 : blocktimeNotLater cs h
      · rw [checkValidity_blocktimeNotLater deps2 cs _ now h1 (mt w2.mp h2) (w3.mpr h3),
          checkValidity_blocktimeNotLater deps cs h now h1 h2 h3]
        rfl
      · have h4 : heightNotNewer cs h := by tauto
        rw [checkValidity_heightNotNewer deps2 cs _ now h1 (mt w2.mp h2) (mt w3.mp h3)
            (w4.mpr h4),
          checkValidity_heightNotNewer deps cs h now h1 h2 h3 h4]
        rfl

/-- The five ways through checkValidity: the first check that fires decides the outcome, and
past the four checks only a conversion or `lite.Verify` can produce an error. -/
theorem checkValidity_classify {κ : Type} (deps : Deps κ) (cs : types.ClientState κ)
    (h : types.Header) (now : Time) :
    (periodPassed cs now
        ∧ checkValidity deps cs h now = .returns (some .TrustingPeriodPassed))
      ∨ (¬ periodPassed cs now ∧ headerOutsidePeriod cs h
        ∧ checkValidity deps cs h now = .returns (some .HeaderOutsideTrustingPeriod))
      ∨ (¬ periodPassed cs now ∧ ¬ headerOutsidePeriod cs h ∧ blocktimeNotLater cs h
        ∧ checkValidity deps cs h now
            = .returns (some (.BlocktimeNotLater h.SignedHeader.Header.Time
                cs.GetLatestTimestamp)))
      ∨ (¬ periodPassed cs now ∧ ¬ headerOutsidePeriod cs h ∧ ¬ blocktimeNotLater cs h
        ∧ heightNotNewer cs h
        ∧ checkValidity deps cs h now
            = .returns (some (.HeightNotNewer h.GetHeight cs.GetLatestHeight)))
      ∨ (¬ periodPassed cs now ∧ ¬ headerOutsidePeriod cs h ∧ ¬ blocktimeNotLater cs h
        ∧ ¬ heightNotNewer cs h
        ∧ ∀ e, checkValidity deps cs h now = .returns (some e) →
            (∃ m, e = .FromProto m) ∨ (∃ m, e = .VerifyFailed m)) := by
  by_cases h1 : periodPassed cs now
  · exact Or.inl ⟨h1, checkValidity_periodPassed deps cs h now h1⟩
  · by_cases h2 : headerOutsidePeriod cs h
    · exact Or.inr (Or.inl ⟨h1, h2, checkValidity_headerOutsidePeriod deps cs h now h1 h2⟩)
    · by_cases h3 : blocktimeNotLater cs h
      · exact Or.inr (Or.inr (Or.inl
          ⟨h1, h2, h3, checkValidity_blocktimeNotLater deps cs h now h1 h2 h3⟩))
      · by_cases h4 : heightNotNewer cs h
        · exact Or.inr (Or.inr (Or.inr (Or.inl
            ⟨h1, h2, h3, h4, checkValidity_heightNotNewer deps cs h now h1 h2 h3 h4⟩)))
        · exact Or.inr (Or.inr (Or.inr (Or.inr
            ⟨h1, h2, h3, h4, checkValidity_delegated_errors deps cs h now h1 h2 h3 h4⟩)))

/-- When checkValidity returns `nil`, its call of `lite.Verify`, with `nil` for the four
converted values, returned `nil`. -/
theorem checkValidity_nil_verify {κ : Type} (deps : Deps κ) (cs : types.ClientState κ)
    (h : types.Header) (now : Time) (hcv : checkValidity deps cs h now = .returns none) :
    deps.Verify (deps.GetChainID cs) none none none none cs.TrustingPeriod now maxClockDrift
      deps.DefaultTrustLevel = .returns none := by
  unfold checkValidity at hcv
  simp only at hcv
  split_ifs at hcv
  repeat' split at hcv
  all_goals first
    | assumption
    | cases hcv

/-- When checkValidity returns the wrapped error of `lite.Verify`, its call of `lite.Verify`
returned that error. -/
theorem checkValidity_verify_error {κ : Type} (deps : Deps κ) (cs : types.ClientState κ)
    (h : types.Header) (now : Time) (m : String)
    (hcv : checkValidity deps cs h now = .returns (some (.VerifyFailed m))) :
    deps.Verify (deps.GetChainID cs) none none none none cs.TrustingPeriod now maxClockDrift
      deps.DefaultTrustLevel = .returns (some m) := by
  unfold checkValidity at hcv
  simp only at hcv
  split_ifs at hcv
  repeat' split at hcv
  all_goals first
    | (cases hcv; assumption)
    | cases hcv

/-- The client state's chain identifier reaches checkValidity only as the first argument of
`lite.Verify`. -/
theorem checkValidity_chain_id_via_verify {κ : Type} (deps deps2 : Deps κ)
    (cs : types.ClientState κ) (h : types.Header) (now : Time)
    (hsh : deps2.SignedHeaderFromProto = deps.SignedHeaderFromProto)
    (hvs : deps2.ValidatorSetFromProto = deps.ValidatorSetFromProto)
    (htl : deps2.DefaultTrustLevel = deps.DefaultTrustLevel)
    (hver : deps2.Verify (deps2.GetChainID cs) = deps.Verify (deps.GetChainID cs)) :
    checkValidity deps2 cs h now = checkValidity deps cs h now := by
  simp only [checkValidity, hsh, hvs, htl, hver]

/-! ## Theorems -/

/-- C1. Once `now - latestTimestamp >= TrustingPeriod` (the boundary included),
CheckValidityAndUpdateState on a Tendermint client state and any Tendermint header returns
the trusting-period error and no state, whatever the header and the library are. -/
theorem trusting_period_gate {κ : Type} (deps : Deps κ) (clientState : types.ClientState κ)
    (header : types.Header) (now : Time)
    (hexp : clientState.TrustingPeriod.ns
      ≤ now.unixNano - clientState.GetLatestTimestamp.unixNano) :
    CheckValidityAndUpdateState deps (.Tendermint clientState) (.Tendermint header) now
      = .returns (none, none, some .TrustingPeriodPassed) := by
  have h1 : (now.Sub clientState.GetLatestTimestamp).ns ≥ clientState.TrustingPeriod.ns :=
    saturate_ge _ _ hexp
  simp only [CheckValidityAndUpdateState, checkValidity, if_pos h1]

/-- The gate of C1 at the boundary: the scenario's client, exactly fourteen days after `t0`. -/
theorem trusting_period_gate_witness :
    trustedClient.TrustingPeriod.ns
        ≤ (Time.mk (t0.unixNano + 1209600 * Second)).unixNano
          - trustedClient.GetLatestTimestamp.unixNano
      ∧ CheckValidityAndUpdateState acceptingDeps (.Tendermint trustedClient)
          (.Tendermint candidateHeader) ⟨t0.unixNano + 1209600 * Second⟩
        = .returns (none, none, some .TrustingPeriodPassed) :=
  ⟨by decide, trusting_period_gate acceptingDeps trustedClient candidateHeader _ (by decide)⟩

/-- C3. update builds the consensus state from the header (height, timestamp, validator set,
root of the app hash) and makes the header the last header of the client state, so the
returned client state and consensus state agree on height and timestamp. -/
theorem update_takes_header {κ : Type} (clientState : types.ClientState κ)
    (header : types.Header) :
    (update clientState header).2.Height = uint64 header.SignedHeader.Header.Height
      ∧ (update clientState header).2.Height = header.GetHeight
      ∧ (update clientState header).2.Timestamp = header.SignedHeader.Header.Time
      ∧ (update clientState header).2.ValidatorSet = header.ValidatorSet
      ∧ (update clientState header).2.Root
          = commitmenttypes.NewMerkleRoot header.SignedHeader.Header.AppHash
      ∧ (update clientState header).1.LastHeader = header
      ∧ (update clientState header).1.GetLatestHeight = (update clientState header).2.Height
      ∧ (update clientState header).1.GetLatestTimestamp
          = (update clientState header).2.Timestamp :=
  ⟨rfl, rfl, rfl, rfl, rfl, rfl, rfl, rfl⟩

/-- When checkValidity returns `nil`, none of its four precondition checks fired. -/
theorem checkValidity_nil_preconditions {κ : Type} (deps : Deps κ)
    (clientState : types.ClientState κ) (header : types.Header) (now : Time)
    (h : checkValidity deps clientState header now = .returns none) :
    (now.Sub clientState.GetLatestTimestamp).ns < clientState.TrustingPeriod.ns
      ∧ (header.SignedHeader.Header.Time.Sub clientState.GetLatestTimestamp).ns
          < clientState.TrustingPeriod.ns
      ∧ clientState.GetLatestTimestamp.Unix < header.SignedHeader.Header.Time.Unix
      ∧ clientState.GetLatestHeight < header.GetHeight := by
  unfold checkValidity at h
  simp only at h
  split_ifs at h with h1 h2 h3 h4
  · cases h
  · cases h
  · cases h
  · cases h
  · exact ⟨not_le.mp h1, not_le.mp h2, not_le.mp h3, not_le.mp h4⟩

/-- What CheckValidityAndUpdateState returns, read off the outcome of checkValidity. -/
theorem CheckValidityAndUpdateState_returns {κ : Type} (deps : Deps κ)
    (clientState : clientexported.ClientState κ) (header : clientexported.Header) (now : Time)
    (ocs : Option (types.ClientState κ)) (ocons : Option types.ConsensusState)
    (oerr : Option Error)
    (hret : CheckValidityAndUpdateState deps clientState header now
      = .returns (ocs, ocons, oerr)) :
    (ocs = none ∧ ocons = none ∧ oerr ≠ none)
      ∨ (∃ cs h, clientState = .Tendermint cs ∧ header = .Tendermint h
          ∧ checkValidity deps cs h now = .returns none
          ∧ ocs = some (update cs h).1 ∧ ocons = some (update cs h).2 ∧ oerr = none) := by
  cases clientState with
  | Other t =>
    simp only [CheckValidityAndUpdateState, Outcome.returns.injEq, Prod.mk.injEq] at hret
    obtain ⟨h1, h2, h3⟩ := hret
    subst h1 h2 h3
    exact Or.inl ⟨rfl, rfl, by simp⟩
  | Tendermint cs =>
    cases header with
    | Other t =>
      simp only [CheckValidityAndUpdateState, Outcome.returns.injEq, Prod.mk.injEq] at hret
      obtain ⟨h1, h2, h3⟩ := hret
      subst h1 h2 h3
      exact Or.inl ⟨rfl, rfl, by simp⟩
    | Tendermint h =>
      simp only [CheckValidityAndUpdateState] at hret
      cases hcv : checkValidity deps cs h now with
      | panics => rw [hcv] at hret; cases hret
      | returns oe =>
        rw [hcv] at hret
        cases oe with
        | some e =>
          simp only [Outcome.returns.injEq, Prod.mk.injEq] at hret
          obtain ⟨h1, h2, h3⟩ := hret
          subst h1 h2 h3
          exact Or.inl ⟨rfl, rfl, by simp⟩
        | none =>
          simp only [Outcome.returns.injEq, Prod.mk.injEq] at hret
          obtain ⟨h1, h2, h3⟩ := hret
          subst h1 h2 h3
          exact Or.inr ⟨cs, h, rfl, rfl, hcv, rfl, rfl, rfl⟩

/-- C4. Whatever CheckValidityAndUpdateState returns: with an error both states are `nil`;
with no error the inputs are Tendermint values, checkValidity returned `nil` on them, and the
returned pair is `update clientState header`. -/
theorem states_only_on_success {κ : Type} (deps : Deps κ)
    (clientState : clientexported.ClientState κ) (header : clientexported.Header) (now : Time)
    (ocs : Option (types.ClientState κ)) (ocons : Option types.ConsensusState)
    (oerr : Option Error)
    (hret : CheckValidityAndUpdateState deps clientState header now
      = .returns (ocs, ocons, oerr)) :
    (oerr ≠ none → ocs = none ∧ ocons = none)
      ∧ (oerr = none → ∃ cs h, clientState = .Tendermint cs ∧ header = .Tendermint h
          ∧ checkValidity deps cs h now = .returns none
          ∧ ocs = some (update cs h).1 ∧ ocons = some (update cs h).2) := by
  rcases CheckValidityAndUpdateState_returns deps clientState header now ocs ocons oerr hret
    with ⟨h1, h2, h3⟩ | ⟨cs, h, hc, hh, hv, h1, h2, h3⟩
  · exact ⟨fun _ => ⟨h1, h2⟩, fun hn => absurd hn h3⟩
  · exact ⟨fun hn => absurd h3 hn, fun _ => ⟨cs, h, hc, hh, hv, h1, h2⟩⟩

/-- C4 on the scenario, eleven seconds after `t0`: the call returns no error together with
the pair of `update`, and checkValidity returned `nil`; for a header of another client kind
it returns an error and both states are `nil`. -/
theorem states_only_on_success_witness :
    CheckValidityAndUpdateState acceptingDeps (.Tendermint trustedClient)
        (.Tendermint candidateHeader) ⟨t0.unixNano + 11 * Second⟩
      = .returns (some (update trustedClient candidateHeader).1,
          some (update trustedClient candidateHeader).2, none)
      ∧ (∃ cs h, clientexported.ClientState.Tendermint trustedClient = .Tendermint cs
          ∧ clientexported.Header.Tendermint candidateHeader = .Tendermint h
          ∧ checkValidity acceptingDeps cs h ⟨t0.unixNano + 11 * Second⟩ = .returns none
          ∧ some (update trustedClient candidateHeader).1 = some (update cs h).1
          ∧ some (update trustedClient candidateHeader).2 = some (update cs h).2)
      ∧ CheckValidityAndUpdateState acceptingDeps (.Tendermint trustedClient) (.Other 6)
          ⟨t0.unixNano + 11 * Second⟩ = .returns (none, none, some .HeaderNotTendermint)
      ∧ (none : Option (types.ClientState Unit)) = none
      ∧ (none : Option types.ConsensusState) = none :=
  ⟨by rfl,
   (states_only_on_success acceptingDeps (.Tendermint trustedClient)
      (.Tendermint candidateHeader) ⟨t0.unixNano + 11 * Second⟩
      (some (update trustedClient candidateHeader).1)
      (some (update trustedClient candidateHeader).2) none (by rfl)).2 rfl,
   by rfl,
   (states_only_on_success acceptingDeps (.Tendermint trustedClient) (.Other 6)
      ⟨t0.unixNano + 11 * Second⟩ none none (some .HeaderNotTendermint) (by rfl)).1
      (by simp)⟩

/-- C9. The client state returned by update is the input client state with `LastHeader`
replaced: `TrustingPeriod` and all remaining fields are those of the input. The same holds
for the client state of a successful CheckValidityAndUpdateState. -/
theorem update_changes_last_header_only {κ : Type} (clientState : types.ClientState κ)
    (header : types.Header) :
    (update clientState header).1 = { clientState with LastHeader := header }
      ∧ (update clientState header).1.TrustingPeriod = clientState.TrustingPeriod
      ∧ (update clientState header).1.Rest = clientState.Rest
      ∧ ∀ (deps : Deps κ) (now : Time) (ocs : Option (types.ClientState κ))
          (ocons : Option types.ConsensusState),
          CheckValidityAndUpdateState deps (.Tendermint clientState) (.Tendermint header) now
            = .returns (ocs, ocons, none) →
          ocs = some { clientState with LastHeader := header } := by
  refine ⟨rfl, rfl, rfl, ?_⟩
  intro deps now ocs ocons hret
  rcases CheckValidityAndUpdateState_returns deps _ _ now ocs ocons none hret
    with ⟨_, _, h3⟩ | ⟨cs, h, hc, hh, _, h1, _, _⟩
  · exact absurd rfl h3
  · cases hc
    cases hh
    exact h1

/-- C9 on the scenario: the accepted update keeps the fourteen-day trusting period and
replaces the last header by the candidate. -/
theorem update_changes_last_header_only_witness :
    CheckValidityAndUpdateState acceptingDeps (.Tendermint trustedClient)
        (.Tendermint candidateHeader) ⟨t0.unixNano + 11 * Second⟩
      = .returns (some (update trustedClient candidateHeader).1,
          some (update trustedClient candidateHeader).2, none)
      ∧ some (update trustedClient candidateHeader).1
          = some { trustedClient with LastHeader := candidateHeader } :=
  ⟨by rfl,
   (update_changes_last_header_only trustedClient candidateHeader).2.2.2 acceptingDeps
      ⟨t0.unixNano + 11 * Second⟩ _ (some (update trustedClient candidateHeader).2) (by rfl)⟩

/-- C2. When CheckValidityAndUpdateState returns no error on a client state and a header, the
returned client state has a strictly greater latest height and a strictly later latest
timestamp than the input client state. -/
theorem success_strictly_advances {κ : Type} (deps : Deps κ)
    (clientState : types.ClientState κ) (header : types.Header) (now : Time)
    (ocs : Option (types.ClientState κ)) (ocons : Option types.ConsensusState)
    (hok : CheckValidityAndUpdateState deps (.Tendermint clientState) (.Tendermint header) now
      = .returns (ocs, ocons, none)) :
    ∃ newState, ocs = some newState
      ∧ clientState.GetLatestHeight < newState.GetLatestHeight
      ∧ clientState.GetLatestTimestamp.unixNano < newState.GetLatestTimestamp.unixNano := by
  rcases CheckValidityAndUpdateState_returns deps _ _ now ocs ocons none hok
    with ⟨_, _, h3⟩ | ⟨cs, h, hc, hh, hv, h1, _, _⟩
  · exact absurd rfl h3
  · cases hc
    cases hh
    obtain ⟨_, _, ht, hh⟩ := checkValidity_nil_preconditions deps clientState header now hv
    exact ⟨(update clientState header).1, h1, hh, unix_lt_imp_lt _ _ ht⟩

/-- C2 on the scenario: height 100 becomes 101 and `t0` becomes `t0 + 10s`. -/
theorem success_strictly_advances_witness :
    CheckValidityAndUpdateState acceptingDeps (.Tendermint trustedClient)
        (.Tendermint candidateHeader) ⟨t0.unixNano + 11 * Second⟩
      = .returns (some (update trustedClient candidateHeader).1,
          some (update trustedClient candidateHeader).2, none)
      ∧ ∃ newState, some (update trustedClient candidateHeader).1 = some newState
          ∧ trustedClient.GetLatestHeight < newState.GetLatestHeight
          ∧ trustedClient.GetLatestTimestamp.unixNano
              < newState.GetLatestTimestamp.unixNano :=
  ⟨by rfl,
   success_strictly_advances acceptingDeps trustedClient candidateHeader
      ⟨t0.unixNano + 11 * Second⟩ _ (some (update trustedClient candidateHeader).2) (by rfl)⟩

/-- C5, as stated, fails: the trusted header submitted again has a height not above the
latest height (100 ≤ 100), and eleven seconds after `t0` the error reported is the one of
the block-time check, not the one of the height check. -/
theorem height_error_not_always_reported :
    heightNotNewer trustedClient trustedHeader
      ∧ checkValidity acceptingDeps trustedClient trustedHeader ⟨t0.unixNano + 11 * Second⟩
          = .returns (some (.BlocktimeNotLater t0 t0))
      ∧ CheckValidityAndUpdateState acceptingDeps (.Tendermint trustedClient)
          (.Tendermint trustedHeader) ⟨t0.unixNano + 11 * Second⟩
          = .returns (none, none, some (.BlocktimeNotLater t0 t0))
      ∧ ¬ ∃ a b, checkValidity acceptingDeps trustedClient trustedHeader
          ⟨t0.unixNano + 11 * Second⟩ = .returns (some (.HeightNotNewer a b)) := by
  refine ⟨by decide, by rfl, by rfl, ?_⟩
  rintro ⟨a, b, he⟩
  have hcv : checkValidity acceptingDeps trustedClient trustedHeader
      ⟨t0.unixNano + 11 * Second⟩ = .returns (some (.BlocktimeNotLater t0 t0)) := by rfl
  rw [hcv] at he
  cases he

/-- C5, amended. A header whose height is not above the latest height is always rejected:
checkValidity returns an error, and CheckValidityAndUpdateState returns that error and no
state. The error is the one of the first check that fails: the trusting-period error when the
trusting period has passed; otherwise the outside-trusting-period error when the header
lies outside it; otherwise the block-time error when the header time is not later than the
latest timestamp; and the height error, carrying the two heights, when both trusting-period
checks pass and the header time is at least one second later. The height error is reported
only when both trusting-period checks pass and the header time is strictly later. -/
theorem height_not_newer_rejected {κ : Type} (deps : Deps κ) (cs : types.ClientState κ)
    (h : types.Header) (now : Time) (h4 : heightNotNewer cs h) :
    (∃ e, checkValidity deps cs h now = .returns (some e)
        ∧ CheckValidityAndUpdateState deps (.Tendermint cs) (.Tendermint h) now
            = .returns (none, none, some e))
      ∧ (periodPassed cs now →
          checkValidity deps cs h now = .returns (some .TrustingPeriodPassed))
      ∧ (¬ periodPassed cs now → headerOutsidePeriod cs h →
          checkValidity deps cs h now = .returns (some .HeaderOutsideTrustingPeriod))
      ∧ (¬ periodPassed cs now → ¬ headerOutsidePeriod cs h →
          h.SignedHeader.Header.Time.unixNano ≤ cs.GetLatestTimestamp.unixNano →
          checkValidity deps cs h now
            = .returns (some (.BlocktimeNotLater h.SignedHeader.Header.Time
                cs.GetLatestTimestamp)))
      ∧ (¬ periodPassed cs now → ¬ headerOutsidePeriod cs h →
          cs.GetLatestTimestamp.unixNano + Second ≤ h.SignedHeader.Header.Time.unixNano →
          checkValidity deps cs h now
            = .returns (some (.HeightNotNewer h.GetHeight cs.GetLatestHeight)))
      ∧ ((∃ a b, checkValidity deps cs h now = .returns (some (.HeightNotNewer a b))) →
          ¬ periodPassed cs now ∧ ¬ headerOutsidePeriod cs h
            ∧ cs.GetLatestTimestamp.unixNano < h.SignedHeader.Header.Time.unixNano) := by
  refine ⟨?_, checkValidity_periodPassed deps cs h now,
    checkValidity_headerOutsidePeriod deps cs h now,
    fun q1 q2 q3 => checkValidity_blocktimeNotLater deps cs h now q1 q2
      (not_later_unix _ _ q3),
    fun q1 q2 q3 => checkValidity_heightNotNewer deps cs h now q1 q2
      (not_le.mpr (second_later_unix _ _ q3)) h4, ?_⟩
  · rcases checkValidity_classify deps cs h now with ⟨_, hcv⟩ | ⟨_, _, hcv⟩ | ⟨_, _, _, hcv⟩
      | ⟨_, _, _, _, hcv⟩ | ⟨_, _, _, p4, _⟩
    · exact ⟨_, hcv, by simp only [CheckValidityAndUpdateState, hcv]⟩
    · exact ⟨_, hcv, by simp only [CheckValidityAndUpdateState, hcv]⟩
    · exact ⟨_, hcv, by simp only [CheckValidityAndUpdateState, hcv]⟩
    · exact ⟨_, hcv, by simp only [CheckValidityAndUpdateState, hcv]⟩
    · exact absurd h4 p4
  · rintro ⟨a, b, he⟩
    rcases checkValidity_classify deps cs h now with ⟨_, hcv⟩ | ⟨_, _, hcv⟩
      | ⟨_, _, _, hcv⟩ | ⟨q1, q2, q3, _, _⟩ | ⟨_, _, _, p4, _⟩
    · rw [hcv] at he
      cases he
    · rw [hcv] at he
      cases he
    · rw [hcv] at he
      cases he
    · exact ⟨q1, q2, unix_lt_imp_lt _ _ (not_le.mp q3)⟩
    · exact absurd h4 p4

/-- C5, amended, on concrete inputs against the trusted height 100. A header of height 100 at
`t0 + 10s` is rejected eleven seconds after `t0` with the height error, and fourteen days
after `t0` with the trusting-period error; the trusted header itself, submitted again, is
rejected with the block-time error. -/
theorem height_not_newer_rejected_witness :
    heightNotNewer trustedClient staleHeightHeader
      ∧ checkValidity acceptingDeps trustedClient staleHeightHeader
          ⟨t0.unixNano + 11 * Second⟩ = .returns (some (.HeightNotNewer 100 100))
      ∧ checkValidity acceptingDeps trustedClient staleHeightHeader
          ⟨t0.unixNano + 1209600 * Second⟩ = .returns (some .TrustingPeriodPassed)
      ∧ heightNotNewer trustedClient trustedHeader
      ∧ checkValidity acceptingDeps trustedClient trustedHeader ⟨t0.unixNano + 11 * Second⟩
          = .returns (some (.BlocktimeNotLater t0 t0)) :=
  ⟨by decide,
   (height_not_newer_rejected acceptingDeps trustedClient staleHeightHeader
      ⟨t0.unixNano + 11 * Second⟩ (by decide)).2.2.2.2.1 (by decide) (by decide) (by decide),
   (height_not_newer_rejected acceptingDeps trustedClient staleHeightHeader
      ⟨t0.unixNano + 1209600 * Second⟩ (by decide)).2.1 (by decide),
   by decide,
   (height_not_newer_rejected acceptingDeps trustedClient trustedHeader
      ⟨t0.unixNano + 11 * Second⟩ (by decide)).2.2.2.1 (by decide) (by decide) (by decide)⟩

/-- C7, as stated, fails: the candidate header on chain "chain-B" differs in chain identifier
from the client state on "chain-A", and fourteen days after `t0` the error reported is the
trusting-period error of the first check, not a chain-identifier error. -/
theorem chain_id_not_checked_first :
    foreignHeader.SignedHeader.Header.ChainID ≠ acceptingDeps.GetChainID trustedClient
      ∧ checkValidity acceptingDeps trustedClient foreignHeader
          ⟨t0.unixNano + 1209600 * Second⟩ = .returns (some .TrustingPeriodPassed)
      ∧ CheckValidityAndUpdateState acceptingDeps (.Tendermint trustedClient)
          (.Tendermint foreignHeader) ⟨t0.unixNano + 1209600 * Second⟩
          = .returns (none, none, some .TrustingPeriodPassed) :=
  ⟨by decide, by rfl, by rfl⟩

/-- C7, amended. The chain identifiers are not compared first, and not by checkValidity
itself: the chain identifier of the client state is handed to `lite.Verify`, which runs
after the four checks. When the trusting period has passed, the header lies outside it, the
header time is not later or the header height is not higher, verification fails with the
error of one of these four checks and no state, and the outcome is the same whatever the
chain identifier of the header and whatever the library. Verification succeeds only if a call
of `lite.Verify` with the chain identifier of the client state returned `nil`; an error of
that call is reported wrapped as an invalid-header error, with no state; and the chain
identifier of the client state enters the outcome through that call only. So with a
`lite.Verify` that accepts only a signed header of the chain identifier it is given, a header
whose chain identifier differs from the one of the client state is never accepted. -/
theorem chain_id_left_to_verifier {κ : Type} (deps : Deps κ) (cs : types.ClientState κ)
    (h : types.Header) (now : Time) :
    ((periodPassed cs now ∨ headerOutsidePeriod cs h
          ∨ h.SignedHeader.Header.Time.unixNano ≤ cs.GetLatestTimestamp.unixNano
          ∨ heightNotNewer cs h) →
        (∃ e, (e = .TrustingPeriodPassed ∨ e = .HeaderOutsideTrustingPeriod
              ∨ (∃ a b, e = .BlocktimeNotLater a b) ∨ (∃ a b, e = .HeightNotNewer a b))
            ∧ checkValidity deps cs h now = .returns (some e)
            ∧ CheckValidityAndUpdateState deps (.Tendermint cs) (.Tendermint h) now
                = .returns (none, none, some e))
          ∧ ∀ (deps2 : Deps κ) (c : String),
              checkValidity deps2 cs (withChainID h c) now = checkValidity deps cs h now)
      ∧ (∀ ocs ocons,
          CheckValidityAndUpdateState deps (.Tendermint cs) (.Tendermint h) now
            = .returns (ocs, ocons, none) →
          ∃ lastSignedHeader lastValidatorSet signedHeader validatorSet,
            deps.Verify (deps.GetChainID cs) lastSignedHeader lastValidatorSet signedHeader
              validatorSet cs.TrustingPeriod now maxClockDrift deps.DefaultTrustLevel
              = .returns none)
      ∧ (∀ m, checkValidity deps cs h now = .returns (some (.VerifyFailed m)) →
          (∃ lastSignedHeader lastValidatorSet signedHeader validatorSet,
            deps.Verify (deps.GetChainID cs) lastSignedHeader lastValidatorSet signedHeader
              validatorSet cs.TrustingPeriod now maxClockDrift deps.DefaultTrustLevel
              = .returns (some m))
            ∧ CheckValidityAndUpdateState deps (.Tendermint cs) (.Tendermint h) now
                = .returns (none, none, some (.VerifyFailed m)))
      ∧ (∀ deps2 : Deps κ,
          deps2.SignedHeaderFromProto = deps.SignedHeaderFromProto →
          deps2.ValidatorSetFromProto = deps.ValidatorSetFromProto →
          deps2.DefaultTrustLevel = deps.DefaultTrustLevel →
          deps2.Verify (deps2.GetChainID cs) = deps.Verify (deps.GetChainID cs) →
          checkValidity deps2 cs h now = checkValidity deps cs h now)
      ∧ ((∀ chainID lastSignedHeader lastValidatorSet signedHeader validatorSet
            trustingPeriod t drift trustLevel,
            deps.Verify chainID lastSignedHeader lastValidatorSet signedHeader validatorSet
              trustingPeriod t drift trustLevel = .returns none →
            ∃ sh, signedHeader = some sh ∧ sh.Header.ChainID = chainID) →
          h.SignedHeader.Header.ChainID ≠ deps.GetChainID cs →
          ∀ ocs ocons,
            CheckValidityAndUpdateState deps (.Tendermint cs) (.Tendermint h) now
              ≠ .returns (ocs, ocons, none)) := by
  refine ⟨?_, ?_, ?_, ?_, ?_⟩
  · intro hpre
    have hpre2 : periodPassed cs now ∨ headerOutsidePeriod cs h ∨ blocktimeNotLater cs h
        ∨ heightNotNewer cs h := by
      rcases hpre with q | q | q | q
      · exact Or.inl q
      · exact Or.inr (Or.inl q)
      · exact Or.inr (Or.inr (Or.inl (not_later_unix _ _ q)))
      · exact Or.inr (Or.inr (Or.inr q))
    refine ⟨?_, fun deps2 c =>
      checkValidity_precondition_independent deps deps2 cs h now c hpre2⟩
    rcases checkValidity_classify deps cs h now with ⟨_, hcv⟩ | ⟨_, _, hcv⟩ | ⟨_, _, _, hcv⟩
      | ⟨_, _, _, _, hcv⟩ | ⟨p1, p2, p3, p4, _⟩
    · exact ⟨_, Or.inl rfl, hcv, by simp only [CheckValidityAndUpdateState, hcv]⟩
    · exact ⟨_, Or.inr (Or.inl rfl), hcv, by simp only [CheckValidityAndUpdateState, hcv]⟩
    · exact ⟨_, Or.inr (Or.inr (Or.inl ⟨_, _, rfl⟩)), hcv,
        by simp only [CheckValidityAndUpdateState, hcv]⟩
    · exact ⟨_, Or.inr (Or.inr (Or.inr ⟨_, _, rfl⟩)), hcv,
        by simp only [CheckValidityAndUpdateState, hcv]⟩
    · rcases hpre2 with q | q | q | q
      · exact absurd q p1
      · exact absurd q p2
      · exact absurd q p3
      · exact absurd q p4
  · intro ocs ocons hret
    rcases CheckValidityAndUpdateState_returns deps _ _ now ocs ocons none hret
      with ⟨_, _, h3⟩ | ⟨cs2, h2, hc, hh, hv, _, _, _⟩
    · exact absurd rfl h3
    · cases hc
      cases hh
      exact ⟨none, none, none, none, checkValidity_nil_verify deps cs h now hv⟩
  · intro m hcv
    exact ⟨⟨none, none, none, none, checkValidity_verify_error deps cs h now m hcv⟩,
      by simp only [CheckValidityAndUpdateState, hcv]⟩
  · intro deps2 hsh hvs htl hver
    exact checkValidity_chain_id_via_verify deps deps2 cs h now hsh hvs htl hver
  · intro hlib _ ocs ocons hret
    rcases CheckValidityAndUpdateState_returns deps _ _ now ocs ocons none hret
      with ⟨_, _, h3⟩ | ⟨cs2, h2, hc, hh, hv, _, _, _⟩
    · exact absurd rfl h3
    · cases hc
      cases hh
      obtain ⟨sh, hsome, _⟩ := hlib _ _ _ _ _ _ _ _ _ (checkValidity_nil_verify deps cs h now hv)
      cases hsome

/-- C7, amended, on concrete inputs. Fourteen days after `t0` the candidate is rejected with
the trusting-period error and no state, on chain "chain-B" exactly as on chain "chain-A".
Eleven seconds after `t0`, with a library that accepts only headers of the chain identifier
it is given, the candidate on chain "chain-B" is not accepted. -/
theorem chain_id_left_to_verifier_witness :
    (∃ e, (e = Error.TrustingPeriodPassed ∨ e = Error.HeaderOutsideTrustingPeriod
          ∨ (∃ a b, e = Error.BlocktimeNotLater a b) ∨ (∃ a b, e = Error.HeightNotNewer a b))
        ∧ checkValidity acceptingDeps trustedClient candidateHeader
            ⟨t0.unixNano + 1209600 * Second⟩ = .returns (some e)
        ∧ CheckValidityAndUpdateState acceptingDeps (.Tendermint trustedClient)
            (.Tendermint candidateHeader) ⟨t0.unixNano + 1209600 * Second⟩
            = .returns (none, none, some e))
      ∧ checkValidity acceptingDeps trustedClient (withChainID candidateHeader "chain-B")
          ⟨t0.unixNano + 1209600 * Second⟩
        = checkValidity acceptingDeps trustedClient candidateHeader
            ⟨t0.unixNano + 1209600 * Second⟩
      ∧ foreignHeader.SignedHeader.Header.ChainID ≠ chainCheckingDeps.GetChainID trustedClient
      ∧ ∀ ocs ocons,
          CheckValidityAndUpdateState chainCheckingDeps (.Tendermint trustedClient)
            (.Tendermint foreignHeader) ⟨t0.unixNano + 11 * Second⟩
            ≠ .returns (ocs, ocons, none) :=
  ⟨((chain_id_left_to_verifier acceptingDeps trustedClient candidateHeader
      ⟨t0.unixNano + 1209600 * Second⟩).1 (Or.inl (by decide))).1,
   ((chain_id_left_to_verifier acceptingDeps trustedClient candidateHeader
      ⟨t0.unixNano + 1209600 * Second⟩).1 (Or.inl (by decide))).2 acceptingDeps "chain-B",
   by decide,
   (chain_id_left_to_verifier chainCheckingDeps trustedClient foreignHeader
      ⟨t0.unixNano + 11 * Second⟩).2.2.2.2
      (by
        intro chainID _ _ signedHeader _ _ _ _ _ hacc
        cases signedHeader with
        | none => cases hacc
        | some sh =>
          by_cases hc : sh.Header.ChainID = chainID
          · exact ⟨sh, rfl, hc⟩
          · simp [chainCheckingDeps, hc] at hacc)
      (by decide)⟩

/-- C8 at its failing input, the example of the spec: trusted height 100 at `t0` with
validators 34/33/33 and a trusting period of fourteen days, candidate of height 101 at
`t0 + 10s` with the same set, signed by 34 + 33 = 67 power, checked eleven seconds after
`t0`. Both trusting-period checks pass, the header is higher and ten seconds later, and the
library accepts the two signed headers with their validator sets; yet
CheckValidityAndUpdateState does not accept: it calls `lite.Verify` with `nil` in their
place, and a verifier that dereferences its arguments panics. -/
theorem spec_example_not_accepted :
    trustedClient.GetLatestHeight < candidateHeader.GetHeight
      ∧ trustedClient.GetLatestTimestamp.unixNano + 10 * Second
          = candidateHeader.SignedHeader.Header.Time.unixNano
      ∧ ¬ periodPassed trustedClient ⟨t0.unixNano + 11 * Second⟩
      ∧ ¬ headerOutsidePeriod trustedClient candidateHeader
      ∧ dereferencingDeps.Verify (dereferencingDeps.GetChainID trustedClient)
          (some trustedHeader.SignedHeader) (some valsA)
          (some candidateHeader.SignedHeader) (some valsA)
          trustedClient.TrustingPeriod ⟨t0.unixNano + 11 * Second⟩ maxClockDrift
          dereferencingDeps.DefaultTrustLevel = .returns none
      ∧ checkValidity dereferencingDeps trustedClient candidateHeader
          ⟨t0.unixNano + 11 * Second⟩ = .panics
      ∧ CheckValidityAndUpdateState dereferencingDeps (.Tendermint trustedClient)
          (.Tendermint candidateHeader) ⟨t0.unixNano + 11 * Second⟩ = .panics :=
  ⟨by decide, by decide, by decide, by decide, rfl, by rfl, by rfl⟩

/-- C10 at its failing inputs, eleven seconds after `t0`, both trusting-period checks
passing. The header of height 101 one nanosecond after `t0` is strictly later than the latest
timestamp, so the condition of the timestamp error does not hold, yet that error is
returned. The header of height 100 at `t0 + 0.6s` is strictly later and not higher, so the
condition of the height error holds and no earlier one does, yet the error returned is the
block-time error. -/
theorem sub_second_header_breaks_error_conditions :
    ¬ periodPassed trustedClient ⟨t0.unixNano + 11 * Second⟩
      ∧ ¬ headerOutsidePeriod trustedClient nanoLaterHeader
      ∧ trustedClient.GetLatestTimestamp.unixNano
          < nanoLaterHeader.SignedHeader.Header.Time.unixNano
      ∧ checkValidity acceptingDeps trustedClient nanoLaterHeader ⟨t0.unixNano + 11 * Second⟩
          = .returns (some (.BlocktimeNotLater ⟨t0.unixNano + 1⟩ t0))
      ∧ ¬ headerOutsidePeriod trustedClient sameSecondHeader
      ∧ trustedClient.GetLatestTimestamp.unixNano
          < sameSecondHeader.SignedHeader.Header.Time.unixNano
      ∧ heightNotNewer trustedClient sameSecondHeader
      ∧ checkValidity acceptingDeps trustedClient sameSecondHeader
          ⟨t0.unixNano + 11 * Second⟩
          = .returns (some (.BlocktimeNotLater ⟨t0.unixNano + 600000000⟩ t0)) :=
  ⟨by decide, by decide, by decide, by rfl, by decide, by decide, by decide, by rfl⟩

/-- C6 at its failing input. The header of height 101 one nanosecond after `t0` is strictly
later than the latest timestamp `t0`, and eleven seconds after `t0` both trusting-period
checks pass; checkValidity nevertheless rejects it with the block-time error, since it
compares whole seconds. -/
theorem nanosecond_later_header_rejected :
    trustedClient.GetLatestTimestamp.unixNano
        < nanoLaterHeader.SignedHeader.Header.Time.unixNano
      ∧ ¬ periodPassed trustedClient ⟨t0.unixNano + 11 * Second⟩
      ∧ ¬ headerOutsidePeriod trustedClient nanoLaterHeader
      ∧ checkValidity acceptingDeps trustedClient nanoLaterHeader ⟨t0.unixNano + 11 * Second⟩
          = .returns (some (.BlocktimeNotLater ⟨t0.unixNano + 1⟩ t0)) :=
  ⟨by decide, by decide, by decide, by rfl⟩

/-- X1. checkValidity consults `lite.Verify` at `nil` arguments only: the four locals it
passes as trusted and new signed header and validator set are never assigned. Two libraries
that agree everywhere except on calls of `lite.Verify` with an actual signed header or
validator set give the same outcome on every input. -/
theorem verify_consulted_at_nil_only {κ : Type} (deps deps2 : Deps κ)
    (cs : types.ClientState κ) (h : types.Header) (now : Time)
    (hid : deps2.GetChainID = deps.GetChainID)
    (hsh : deps2.SignedHeaderFromProto = deps.SignedHeaderFromProto)
    (hvs : deps2.ValidatorSetFromProto = deps.ValidatorSetFromProto)
    (htl : deps2.DefaultTrustLevel = deps.DefaultTrustLevel)
    (hnil : ∀ c tp t d tl, deps2.Verify c none none none none tp t d tl
      = deps.Verify c none none none none tp t d tl) :
    checkValidity deps2 cs h now = checkValidity deps cs h now := by
  simp only [checkValidity, hid, hsh, hvs, htl, hnil]

/-- X1 on the scenario: a library that rejects every actual signed header accepts the
candidate just as the accepting library does. -/
theorem verify_consulted_at_nil_only_witness :
    checkValidity nilOnlyDeps trustedClient candidateHeader ⟨t0.unixNano + 11 * Second⟩
        = checkValidity acceptingDeps trustedClient candidateHeader
            ⟨t0.unixNano + 11 * Second⟩
      ∧ checkValidity nilOnlyDeps trustedClient candidateHeader ⟨t0.unixNano + 11 * Second⟩
        = .returns none :=
  ⟨verify_consulted_at_nil_only acceptingDeps nilOnlyDeps trustedClient candidateHeader
      ⟨t0.unixNano + 11 * Second⟩ rfl rfl rfl rfl (fun _ _ _ _ _ => rfl),
   by rfl⟩

/-- X2. With a library whose `lite.Verify` never accepts `nil` arguments,
CheckValidityAndUpdateState accepts no header at all. -/
theorem no_header_accepted_without_nil_verdict {κ : Type} (deps : Deps κ)
    (cs : types.ClientState κ) (h : types.Header) (now : Time)
    (hnil : ∀ c tp t d tl, deps.Verify c none none none none tp t d tl ≠ .returns none) :
    checkValidity deps cs h now ≠ .returns none
      ∧ ∀ ocs ocons, CheckValidityAndUpdateState deps (.Tendermint cs) (.Tendermint h) now
          ≠ .returns (ocs, ocons, none) := by
  have hne : checkValidity deps cs h now ≠ .returns none :=
    fun hcv => hnil _ _ _ _ _ (checkValidity_nil_verify deps cs h now hcv)
  refine ⟨hne, ?_⟩
  intro ocs ocons hret
  rcases CheckValidityAndUpdateState_returns deps _ _ now ocs ocons none hret
    with ⟨_, _, h3⟩ | ⟨cs2, h2, hc, hh, hv, _, _, _⟩
  · exact h3 rfl
  · cases hc
    cases hh
    exact hne hv

/-- X2 on the scenario: with a library whose `lite.Verify` dereferences its arguments, the
properly signed candidate is not accepted; the call panics. -/
theorem no_header_accepted_without_nil_verdict_witness :
    checkValidity dereferencingDeps trustedClient candidateHeader
        ⟨t0.unixNano + 11 * Second⟩ ≠ .returns none
      ∧ checkValidity dereferencingDeps trustedClient candidateHeader
          ⟨t0.unixNano + 11 * Second⟩ = .panics :=
  ⟨(no_header_accepted_without_nil_verdict dereferencingDeps trustedClient candidateHeader
      ⟨t0.unixNano + 11 * Second⟩ (fun _ _ _ _ _ hacc => by cases hacc)).1,
   by rfl⟩

/-- X3. The order of the four checks, first failure wins. The trusting-period error is
returned exactly when the trusting period has passed, and the outside-trusting-period error
exactly when it has not and the header lies outside it. With both trusting-period checks
passing, a header time that is not later gives the block-time error, and a header time at
least one second later with a height that is not higher gives the height error; the
block-time error is returned only when both trusting-period checks pass, the height error
only when moreover the header time is strictly later and the height is not higher. When the
trusting period has passed, the header lies outside it, its time is not later or its height
is not higher, the outcome does not depend on the library. -/
theorem precondition_order {κ : Type} (deps : Deps κ) (cs : types.ClientState κ)
    (h : types.Header) (now : Time) :
    (checkValidity deps cs h now = .returns (some .TrustingPeriodPassed)
        ↔ periodPassed cs now)
      ∧ (checkValidity deps cs h now = .returns (some .HeaderOutsideTrustingPeriod)
        ↔ ¬ periodPassed cs now ∧ headerOutsidePeriod cs h)
      ∧ (¬ periodPassed cs now → ¬ headerOutsidePeriod cs h →
          h.SignedHeader.Header.Time.unixNano ≤ cs.GetLatestTimestamp.unixNano →
          checkValidity deps cs h now
            = .returns (some (.BlocktimeNotLater h.SignedHeader.Header.Time
                cs.GetLatestTimestamp)))
      ∧ ((∃ a b, checkValidity deps cs h now = .returns (some (.BlocktimeNotLater a b))) →
          ¬ periodPassed cs now ∧ ¬ headerOutsidePeriod cs h)
      ∧ (¬ periodPassed cs now → ¬ headerOutsidePeriod cs h →
          cs.GetLatestTimestamp.unixNano + Second ≤ h.SignedHeader.Header.Time.unixNano →
          heightNotNewer cs h →
          checkValidity deps cs h now
            = .returns (some (.HeightNotNewer h.GetHeight cs.GetLatestHeight)))
      ∧ ((∃ a b, checkValidity deps cs h now = .returns (some (.HeightNotNewer a b))) →
          ¬ periodPassed cs now ∧ ¬ headerOutsidePeriod cs h
            ∧ cs.GetLatestTimestamp.unixNano < h.SignedHeader.Header.Time.unixNano
            ∧ heightNotNewer cs h)
      ∧ ((periodPassed cs now ∨ headerOutsidePeriod cs h
            ∨ h.SignedHeader.Header.Time.unixNano ≤ cs.GetLatestTimestamp.unixNano
            ∨ heightNotNewer cs h) →
          ∀ deps2 : Deps κ, checkValidity deps2 cs h now = checkValidity deps cs h now) := by
  have key := checkValidity_classify deps cs h now
  refine ⟨?_, ?_, ?_, ?_, ?_, ?_, ?_⟩
  · rcases key with ⟨p1, hcv⟩ | ⟨p1, p2, hcv⟩ | ⟨p1, p2, p3, hcv⟩ | ⟨p1, p2, p3, p4, hcv⟩
      | ⟨p1, p2, p3, p4, hcv⟩
    · simp [hcv, p1]
    · simp [hcv, p1]
    · simp [hcv, p1]
    · simp [hcv, p1]
    · constructor
      · intro he
        rcases hcv _ he with ⟨m, hm⟩ | ⟨m, hm⟩ <;> cases hm
      · intro hp
        exact absurd hp p1
  · rcases key with ⟨p1, hcv⟩ | ⟨p1, p2, hcv⟩ | ⟨p1, p2, p3, hcv⟩ | ⟨p1, p2, p3, p4, hcv⟩
      | ⟨p1, p2, p3, p4, hcv⟩
    · simp [hcv, p1]
    · simp [hcv, p1, p2]
    · simp [hcv, p1, p2]
    · simp [hcv, p1, p2]
    · constructor
      · intro he
        rcases hcv _ he with ⟨m, hm⟩ | ⟨m, hm⟩ <;> cases hm
      · intro hp
        exact absurd hp.2 p2
  · exact fun q1 q2 q3 => checkValidity_blocktimeNotLater deps cs h now q1 q2
      (not_later_unix _ _ q3)
  · rintro ⟨a, b, he⟩
    rcases key with ⟨p1, hcv⟩ | ⟨p1, p2, hcv⟩ | ⟨p1, p2, p3, hcv⟩ | ⟨p1, p2, p3, p4, hcv⟩
      | ⟨p1, p2, p3, p4, hcv⟩
    · rw [hcv] at he
      cases he
    · rw [hcv] at he
      cases he
    · exact ⟨p1, p2⟩
    · rw [hcv] at he
      cases he
    · rcases hcv _ he with ⟨m, hm⟩ | ⟨m, hm⟩ <;> cases hm
  · exact fun q1 q2 q3 q4 => checkValidity_heightNotNewer deps cs h now q1 q2
      (not_le.mpr (second_later_unix _ _ q3)) q4
  · rintro ⟨a, b, he⟩
    rcases key with ⟨p1, hcv⟩ | ⟨p1, p2, hcv⟩ | ⟨p1, p2, p3, hcv⟩ | ⟨p1, p2, p3, p4, hcv⟩
      | ⟨p1, p2, p3, p4, hcv⟩
    · rw [hcv] at he
      cases he
    · rw [hcv] at he
      cases he
    · rw [hcv] at he
      cases he
    · exact ⟨p1, p2, unix_lt_imp_lt _ _ (not_le.mp p3), p4⟩
    · rcases hcv _ he with ⟨m, hm⟩ | ⟨m, hm⟩ <;> cases hm
  · intro hpre deps2
    have hpre2 : periodPassed cs now ∨ headerOutsidePeriod cs h ∨ blocktimeNotLater cs h
        ∨ heightNotNewer cs h := by
      rcases hpre with q | q | q | q
      · exact Or.inl q
      · exact Or.inr (Or.inl q)
      · exact Or.inr (Or.inr (Or.inl (not_later_unix _ _ q)))
      · exact Or.inr (Or.inr (Or.inr q))
    exact checkValidity_precondition_independent deps deps2 cs h now
      h.SignedHeader.Header.ChainID hpre2

/-- X3 on concrete inputs. With a trusting period of zero, the trusted header submitted one
second before `t0` is both outside the trusting period and not later: it is reported as
outside the trusting period. With the fourteen-day trusting period, the trusted header
submitted eleven seconds after `t0` has both block time and height not newer: it is reported
for its block time. -/
theorem precondition_order_witness :
    headerOutsidePeriod zeroTrustClient trustedHeader
      ∧ trustedHeader.SignedHeader.Header.Time.unixNano
          ≤ zeroTrustClient.GetLatestTimestamp.unixNano
      ∧ checkValidity acceptingDeps zeroTrustClient trustedHeader ⟨t0.unixNano - 1 * Second⟩
          = .returns (some .HeaderOutsideTrustingPeriod)
      ∧ heightNotNewer trustedClient trustedHeader
      ∧ checkValidity acceptingDeps trustedClient trustedHeader ⟨t0.unixNano + 11 * Second⟩
          = .returns (some (.BlocktimeNotLater t0 t0)) :=
  ⟨by decide, by decide,
   (precondition_order acceptingDeps zeroTrustClient trustedHeader
      ⟨t0.unixNano - 1 * Second⟩).2.1.mpr ⟨by decide, by decide⟩,
   by decide,
   (precondition_order acceptingDeps trustedClient trustedHeader
      ⟨t0.unixNano + 11 * Second⟩).2.2.1 (by decide) (by decide) (by decide)⟩

end tendermint
